import Mathlib

/-!
Shallow embedding of the statistical analytics core of the Ascend
repository (`app/analytics.py`, `app/db.py`) and proofs about it.

Modelling conventions:
* Python floats are modelled as exact numbers: `ℚ` for the purely
  rational computations (regression slope, R²-based confidence) and
  `ℝ` for the ones involving `math.sqrt` (Pearson correlation and its
  significance test).
* Calendar dates are modelled as integer day numbers; the code only
  ever uses `(date_i - date_0).days`, the integer day difference.
* Possibly-missing values (`None` in Python) are `Option ℚ`.
* The SQLite `analytics_cache` table has
  `UNIQUE(user_email, analysis_type, time_period)` and is written with
  `INSERT OR REPLACE`, so it is modelled as a map from that key triple
  to an optional row; `CURRENT_TIMESTAMP` is an explicit `now : ℤ`
  parameter (hours), and `expires_at > CURRENT_TIMESTAMP` becomes
  `now < expires_at`.
-/

namespace Ascend

/-- A data point of `analytics.py` (`DataPoint`): a calendar date
(modelled as an integer day number) and a value. -/
structure DataPoint where
  date : ℤ
  value : ℚ
deriving DecidableEq, Inhabited

/-- Macro nutrition data for one date (`MacroData` in `analytics.py`). -/
structure MacroData where
  date : ℤ
  calories : ℚ
  protein : ℚ
  carbs : ℚ
  fat : ℚ
deriving DecidableEq, Inhabited

/-- Embeds `_calculate_linear_slope`: least-squares slope of value against
days-since-first-point.  Fewer than 2 points gives 0; a zero
denominator (all dates equal) gives 0. -/
def calculate_linear_slope (data_points : List DataPoint) : ℚ :=
  if data_points.length < 2 then 0 else
    let first_date := (data_points.getD 0 default).date
    let x_values := data_points.map (fun p => ((p.date - first_date : ℤ) : ℚ))
    let y_values := data_points.map (fun p => p.value)
    let n : ℚ := data_points.length
    let sum_x := x_values.sum
    let sum_y := y_values.sum
    let sum_xy := ((x_values.zip y_values).map (fun q => q.1 * q.2)).sum
    let sum_x_squared := (x_values.map (fun x => x * x)).sum
    let denom := n * sum_x_squared - sum_x * sum_x
    if denom = 0 then 0 else (n * sum_xy - sum_x * sum_y) / denom

/-- Embeds `_determine_trend_direction` with its default threshold 0.01. -/
def determine_trend_direction (rate_of_change : ℚ) : String :=
  if |rate_of_change| ≤ 1/100 then "stable"
  else if rate_of_change > 0 then "increasing"
  else "decreasing"

/-- Embeds `_calculate_trend_confidence`: R² of the line with intercept the
first value and the given slope, clamped below at 0, scaled by
`min 1 (n/14)`, final result clamped to `[0, 1]`.  Fewer than 3 points
gives 0. -/
def calculate_trend_confidence (data_points : List DataPoint) (rate_of_change : ℚ) : ℚ :=
  if data_points.length < 3 then 0 else
    let first := data_points.getD 0 default
    let values := data_points.map (fun p => p.value)
    let mean_y := values.sum / (values.length : ℚ)
    let predicted := data_points.map
      (fun p => first.value + rate_of_change * ((p.date - first.date : ℤ) : ℚ))
    let ss_res := ((values.zip predicted).map (fun q => (q.1 - q.2) ^ 2)).sum
    let ss_tot := (values.map (fun v => (v - mean_y) ^ 2)).sum
    if ss_tot = 0 then (if ss_res = 0 then 1 else 0)
    else
      let r_squared : ℚ := 1 - ss_res / ss_tot
      let r_squared_clamped : ℚ := if r_squared < 0 then 0 else r_squared
      let data_point_factor := min 1 ((data_points.length : ℚ) / 14)
      max 0 (min 1 (r_squared_clamped * data_point_factor))

/-- The seven-point perfectly linear example series of the spec:
values 70, 70.5, …, 73 at unit daily steps. -/
def linearExample7 : List DataPoint :=
  [⟨0, 70⟩, ⟨1, 70 + 1/2⟩, ⟨2, 71⟩, ⟨3, 71 + 1/2⟩, ⟨4, 72⟩, ⟨5, 72 + 1/2⟩, ⟨6, 73⟩]

/-- The input-cleaning filter of `_calculate_correlation`: keep a pair
only when both values are present (`is not None`) and the y-value is
not exactly 0. -/
def validPairs (x_values y_values : List (Option ℚ)) : List (ℚ × ℚ) :=
  (x_values.zip y_values).filterMap (fun q =>
    match q with
    | (some x, some y) => if y = 0 then none else some (x, y)
    | _ => none)

/-- Embeds the quantity `n * sum_xy - sum_x * sum_y` of `_calculate_correlation`. -/
def corrNumerator (pairs : List (ℚ × ℚ)) : ℚ :=
  (pairs.length : ℚ) * ((pairs.map (fun q => q.1 * q.2)).sum)
    - ((pairs.map (fun q => q.1)).sum) * ((pairs.map (fun q => q.2)).sum)

/-- The quantity under the square root in `_calculate_correlation`:
`(n*sum_x_squared - sum_x^2) * (n*sum_y_squared - sum_y^2)`. -/
def corrDenomSq (pairs : List (ℚ × ℚ)) : ℚ :=
  ((pairs.length : ℚ) * ((pairs.map (fun q => q.1 * q.1)).sum)
      - ((pairs.map (fun q => q.1)).sum) * ((pairs.map (fun q => q.1)).sum))
    * ((pairs.length : ℚ) * ((pairs.map (fun q => q.2 * q.2)).sum)
      - ((pairs.map (fun q => q.2)).sum) * ((pairs.map (fun q => q.2)).sum))

/-- Embeds `_calculate_correlation`: Pearson coefficient of the filtered
pairs, 0 on mismatched lengths, on fewer than 2 valid pairs, or on a
zero denominator; result clamped to `[-1, 1]`. -/
noncomputable def calculate_correlation (x_values y_values : List (Option ℚ)) : ℝ :=
  if x_values.length ≠ y_values.length ∨ x_values.length < 2 then 0
  else
    let pairs := validPairs x_values y_values
    if pairs.length < 2 then 0
    else
      let denominator : ℝ := Real.sqrt ((corrDenomSq pairs : ℚ) : ℝ)
      if denominator = 0 then 0
      else max (-1) (min 1 ((corrNumerator pairs : ℝ) / denominator))

/-- The t-statistic `r * sqrt((n - 2) / (1 - r^2))` of
`_calculate_correlation_with_significance`. -/
noncomputable def tStatistic (r : ℝ) (n : ℕ) : ℝ :=
  r * Real.sqrt (((n : ℝ) - 2) / (1 - r ^ 2))

/-- Embeds `_calculate_p_value_from_t`: table lookup of a two-tailed p-value;
1.0 below 3 degrees of freedom, a conservative critical-value table up
to 10 degrees of freedom, the standard table above. -/
noncomputable def calculate_p_value_from_t (t_stat : ℝ) (degrees_freedom : ℕ) : ℝ :=
  if degrees_freedom < 3 then 1
  else if degrees_freedom ≤ 10 then
    (if t_stat ≥ 4.587 then 0.001
     else if t_stat ≥ 3.169 then 0.01
     else if t_stat ≥ 2.228 then 0.05
     else if t_stat ≥ 1.812 then 0.1
     else 0.2)
  else
    (if t_stat ≥ 3.291 then 0.001
     else if t_stat ≥ 2.576 then 0.01
     else if t_stat ≥ 1.96 then 0.05
     else if t_stat ≥ 1.645 then 0.1
     else 0.2)

/-- Python's `round(x, 4)` on our exact-real model: round to four
decimal places.  (Python uses round-half-to-even on binary floats; the
two agree on every value these proofs evaluate, none of which is a
tie.) -/
noncomputable def pythonRound4 (x : ℝ) : ℝ := ((round (x * 10000) : ℤ) : ℝ) / 10000

/-- The dictionary returned by `_calculate_correlation_with_significance`.
The fields absent from the insufficient-data branch are `Option`s. -/
structure CorrelationSignificance where
  correlation : ℝ
  p_value : ℝ
  significant : Bool
  confidence_level : String
  significance_symbol : Option String
  sample_size : ℕ
  strength : Option String
  direction : Option String
  interpretation : String

/-- Embeds `_calculate_correlation_with_significance`: Pearson correlation
plus a t-test-based significance classification; with fewer than 3
valid pairs it returns the fixed insufficient-data record.  (The
`float('inf')` fallback of the source for `correlation**2 == 1` is
unreachable: that branch already requires `abs(correlation) != 1.0`.) -/
noncomputable def calculate_correlation_with_significance
    (x_values y_values : List (Option ℚ)) : CorrelationSignificance :=
  let correlation := calculate_correlation x_values y_values
  let valid_pairs := validPairs x_values y_values
  let n := valid_pairs.length
  if n < 3 then
    ⟨0, 1, false, "none", none, n, none, none, "insufficient_data"⟩
  else
    let p_value : ℝ :=
      if |correlation| = 1 then 0
      else calculate_p_value_from_t |tStatistic correlation n| (n - 2)
    let confidence_level : String :=
      if p_value < 0.001 then "very_high"
      else if p_value < 0.01 then "high"
      else if p_value < 0.05 then "moderate"
      else "low"
    let significance_symbol : String :=
      if p_value < 0.001 then "***"
      else if p_value < 0.01 then "**"
      else if p_value < 0.05 then "*"
      else ""
    let abs_corr := |correlation|
    let strength : String :=
      if abs_corr ≥ 0.7 then "strong"
      else if abs_corr ≥ 0.3 then "moderate"
      else if abs_corr ≥ 0.1 then "weak"
      else "negligible"
    let direction : String :=
      if correlation > 0 then "positive"
      else if correlation < 0 then "negative"
      else "none"
    let interpretation : String :=
      if correlation ≠ 0 then strength ++ "_" ++ direction else "no_correlation"
    ⟨pythonRound4 correlation, pythonRound4 p_value,
     decide (p_value < 0.05), confidence_level, some significance_symbol,
     n, some strength, some direction, interpretation⟩

/-- The `TrendAnalysis` pydantic model (`app/models.py`); dates again
as integer day numbers. -/
structure TrendAnalysis where
  metric_name : String
  time_period : ℤ
  trend_direction : String
  rate_of_change : ℚ
  confidence_level : ℚ
  data_points : ℕ
  start_date : ℤ
  end_date : ℤ
deriving DecidableEq

/-- The JSON blob stored in the `result_data` column of
`analytics_cache`: a serialized `TrendAnalysis`, a serialized mapping
name → `TrendAnalysis`, or some other analysis payload. -/
inductive CachePayload where
  | trend (t : TrendAnalysis)
  | trends (m : List (String × TrendAnalysis))
  | blob (s : String)
deriving DecidableEq

/-- One row of the `analytics_cache` table (sans the synthetic id). -/
structure CacheRow where
  result_data : CachePayload
  expires_at : ℤ
  confidence_level : ℚ
  created_at : ℤ
deriving DecidableEq

/-- The `analytics_cache` table.  It has
`UNIQUE(user_email, analysis_type, time_period)` and is only written
with `INSERT OR REPLACE`, so it is a map from that key triple. -/
def Cache : Type := String × String × ℤ → Option CacheRow

/-- The dictionary returned by `AnalyticsDB.get_cached_analysis`. -/
structure CachedResult where
  result_data : CachePayload
  confidence_level : ℚ
  cached_at : ℤ
deriving DecidableEq

/-- Embeds `AnalyticsDB.get_cached_analysis`: return the row for the key only
when `expires_at > CURRENT_TIMESTAMP`; otherwise a miss. -/
def get_cached_analysis (cache : Cache) (now : ℤ)
    (user_email analysis_type : String) (time_period : ℤ) : Option CachedResult :=
  match cache (user_email, analysis_type, time_period) with
  | none => none
  | some row =>
    if now < row.expires_at then some ⟨row.result_data, row.confidence_level, row.created_at⟩
    else none

/-- Embeds `AnalyticsDB.cache_analysis_result`: upsert of the row for the key
triple, expiring `cache_hours` after now. -/
def cache_analysis_result (cache : Cache) (now : ℤ)
    (user_email analysis_type : String) (time_period : ℤ)
    (result_data : CachePayload) (confidence_level : ℚ) (cache_hours : ℤ) : Cache :=
  fun k =>
    if k = (user_email, analysis_type, time_period) then
      some ⟨result_data, now + cache_hours, confidence_level, now⟩
    else cache k

/-- Embeds `AnalyticsDB.invalidate_user_cache`.  The Python guard is the
truthiness test `if analysis_types:`, so both `None` and the empty
list take the delete-everything-for-the-user branch; a non-empty list
restricts the deletion to `analysis_type IN (...)`. -/
def invalidate_user_cache (cache : Cache) (user_email : String)
    (analysis_types : Option (List String)) : Cache :=
  match analysis_types with
  | some ts =>
    if ts.isEmpty then fun k => if k.1 = user_email then none else cache k
    else fun k => if k.1 = user_email ∧ k.2.1 ∈ ts then none else cache k
  | none => fun k => if k.1 = user_email then none else cache k

/-- Reconstruction `TrendAnalysis(**cached_result["result_data"])` on
a cache hit.  A payload of any other shape would raise in Python; it
never occurs for the "weight_trends" key, and is modelled as `none`. -/
def trendAnalysisOfPayload (p : CachePayload) : Option TrendAnalysis :=
  match p with
  | .trend t => some t
  | _ => none

/-- Reconstruction of the name → `TrendAnalysis` mapping on a
"macro_patterns" cache hit; other shapes never occur for that key. -/
def trendMapOfPayload (p : CachePayload) : List (String × TrendAnalysis) :=
  match p with
  | .trends m => m
  | _ => []

/-- Embeds `AnalyticsService.calculate_weight_trends`, with the database
reads made explicit: the cache table, the current time and the user's
weight series in the window are parameters, and the (possibly updated)
cache is returned alongside the result. -/
def calculate_weight_trends (cache : Cache) (now : ℤ) (user_email : String)
    (days : ℤ) (weight_data : List DataPoint) : Option TrendAnalysis × Cache :=
  match get_cached_analysis cache now user_email "weight_trends" days with
  | some cached => (trendAnalysisOfPayload cached.result_data, cache)
  | none =>
    if weight_data.length < 7 then (none, cache)
    else
      let dates := weight_data.map (fun p => p.date)
      let rate_of_change := calculate_linear_slope weight_data
      let trend_direction := determine_trend_direction rate_of_change
      let confidence_level := calculate_trend_confidence weight_data rate_of_change
      let result : TrendAnalysis :=
        ⟨"body_weight", days, trend_direction, rate_of_change, confidence_level,
         weight_data.length, dates.headD 0, dates.getLastD 0⟩
      (some result,
       cache_analysis_result cache now user_email "weight_trends" days
         (.trend result) confidence_level 24)

/-- Embeds `getattr(data, macro_name)` for the four macro names. -/
def macroValue (m : MacroData) (name : String) : ℚ :=
  if name = "calories" then m.calories
  else if name = "protein" then m.protein
  else if name = "carbs" then m.carbs
  else m.fat

def macroNames : List String := ["calories", "protein", "carbs", "fat"]

/-- Embeds `AnalyticsService.analyze_macro_patterns`, database reads made
explicit as in `calculate_weight_trends`. -/
def analyze_macro_patterns (cache : Cache) (now : ℤ) (user_email : String)
    (days : ℤ) (macro_data : List MacroData) :
    List (String × TrendAnalysis) × Cache :=
  match get_cached_analysis cache now user_email "macro_patterns" days with
  | some cached => (trendMapOfPayload cached.result_data, cache)
  | none =>
    if macro_data.length < 7 then ([], cache)
    else
      let dates := macro_data.map (fun m => m.date)
      let results := macroNames.map (fun name =>
        let data_points := macro_data.map (fun m => DataPoint.mk m.date (macroValue m name))
        let rate_of_change := calculate_linear_slope data_points
        (name, (⟨name, days, determine_trend_direction rate_of_change, rate_of_change,
                 calculate_trend_confidence data_points rate_of_change,
                 data_points.length, dates.headD 0, dates.getLastD 0⟩ : TrendAnalysis)))
      let avg_confidence : ℚ :=
        if results.length = 0 then 0
        else (results.map (fun r => r.2.confidence_level)).sum / (results.length : ℚ)
      (results,
       cache_analysis_result cache now user_email "macro_patterns" days
         (.trends results) avg_confidence 24)

/-! ## Spec-side formulations and helper lemmas -/

theorem sum_map_eq_rangeD {α : Type} {β : Type} [AddCommMonoid β] [Inhabited α]
    (l : List α) (f : α → β) :
    (l.map f).sum = ∑ i ∈ Finset.range l.length, f (l.getD i default) := by
  induction l with
  | nil => simp
  | cons a t ih =>
    simp only [List.map_cons, List.sum_cons, List.length_cons, Finset.sum_range_succ',
      List.getD_cons_succ, List.getD_cons_zero, ih]
    exact (add_comm _ _)

/-- The slope formula as the spec words it: with `x i` the integer day
offset of point `i` from the first point's date and `y i` its value,
`(n·Σxy − Σx·Σy) / (n·Σx² − (Σx)²)`, with 0 for fewer than 2 points or
a zero denominator. -/
def linearSlopeSpec (dps : List DataPoint) : ℚ :=
  if dps.length < 2 then 0 else
  let x : ℕ → ℚ := fun i => (((dps.getD i default).date - (dps.getD 0 default).date : ℤ) : ℚ)
  let y : ℕ → ℚ := fun i => (dps.getD i default).value
  let n : ℚ := dps.length
  let sx := ∑ i ∈ Finset.range dps.length, x i
  let sy := ∑ i ∈ Finset.range dps.length, y i
  let sxy := ∑ i ∈ Finset.range dps.length, x i * y i
  let sx2 := ∑ i ∈ Finset.range dps.length, x i ^ 2
  if n * sx2 - sx ^ 2 = 0 then 0 else (n * sxy - sx * sy) / (n * sx2 - sx ^ 2)

theorem calculate_linear_slope_eq_spec (dps : List DataPoint) :
    calculate_linear_slope dps = linearSlopeSpec dps := by
  unfold calculate_linear_slope linearSlopeSpec
  by_cases h2 : dps.length < 2
  · rw [if_pos h2, if_pos h2]
  · rw [if_neg h2, if_neg h2]
    simp only [List.zip_map', List.map_map, Function.comp_def,
      sum_map_eq_rangeD, pow_two]

theorem calculate_linear_slope_const (dps : List DataPoint) (c : ℚ)
    (hc : ∀ p ∈ dps, p.value = c) : calculate_linear_slope dps = 0 := by
  unfold calculate_linear_slope
  by_cases h2 : dps.length < 2
  · rw [if_pos h2]
  · rw [if_neg h2]
    simp only [List.zip_map', List.map_map, Function.comp_def]
    have hxy : (dps.map (fun p => (((p.date - (dps.getD 0 default).date : ℤ) : ℚ)) * p.value)).sum
        = (dps.map (fun p => (((p.date - (dps.getD 0 default).date : ℤ) : ℚ)))).sum * c := by
      rw [List.map_congr_left
        (g := fun p => (((p.date - (dps.getD 0 default).date : ℤ) : ℚ)) * c)
        (fun p hp => by rw [hc p hp])]
      exact List.sum_map_mul_right dps _ c
    have hy : (dps.map (fun p => p.value)).sum = (dps.length : ℚ) * c := by
      rw [List.map_congr_left (g := fun _ => c) (fun p hp => hc p hp)]
      rw [List.map_const', List.sum_replicate, nsmul_eq_mul]
    rw [hxy, hy]
    split_ifs with h
    · rfl
    · have hz : ((dps.length : ℚ) *
          ((dps.map (fun p => (((p.date - (dps.getD 0 default).date : ℤ) : ℚ)))).sum * c)
          - (dps.map (fun p => (((p.date - (dps.getD 0 default).date : ℤ) : ℚ)))).sum
            * ((dps.length : ℚ) * c)) = 0 := by ring
      rw [hz, zero_div]

/-- Claim C1: `_calculate_linear_slope` returns 0 for fewer than 2
points, and otherwise computes the least-squares slope
`(n·Σxy − Σx·Σy) / (n·Σx² − (Σx)²)` over integer day offsets from the
first point's date, returning 0 when the denominator is 0; on the
perfectly linear series (70, 70.5, …, 73) at unit daily steps it
returns exactly 1/2, and on any all-equal series it returns exactly 0. -/
theorem linear_slope_meets_spec (dps : List DataPoint) (c : ℚ) :
    (dps.length < 2 → calculate_linear_slope dps = 0)
    ∧ calculate_linear_slope dps = linearSlopeSpec dps
    ∧ ((∀ p ∈ dps, p.value = c) → calculate_linear_slope dps = 0)
    ∧ calculate_linear_slope linearExample7 = 1/2 := by
  refine ⟨?_, calculate_linear_slope_eq_spec dps, calculate_linear_slope_const dps c, ?_⟩
  · intro h
    unfold calculate_linear_slope
    rw [if_pos h]
  · norm_num [calculate_linear_slope, linearExample7]

theorem linear_slope_meets_spec_witness :
    ([(⟨0, 5⟩ : DataPoint)].length < 2 ∧ calculate_linear_slope [⟨0, 5⟩] = 0)
    ∧ ((∀ p ∈ [(⟨0, 5⟩ : DataPoint)], p.value = 5) ∧ calculate_linear_slope [⟨0, 5⟩] = 0) :=
  ⟨⟨by decide, (linear_slope_meets_spec [⟨0, 5⟩] 5).1 (by decide)⟩,
   ⟨by decide, (linear_slope_meets_spec [⟨0, 5⟩] 5).2.2.1 (by decide)⟩⟩

theorem max_zero_eq_ite (a : ℚ) : max 0 a = if a < 0 then 0 else a := by
  rcases le_or_lt 0 a with h | h
  · rw [max_eq_right h, if_neg (not_lt.mpr h)]
  · rw [max_eq_left h.le, if_pos h]

/-- The confidence computation as the spec words it: R² of the line
through the first value with the given slope, clamped below at 0,
scaled by the data-sufficiency factor `min 1 (n/14)`, the result
clamped to `[0, 1]`; the constant-series special cases as described. -/
def trendConfidenceSpec (dps : List DataPoint) (slope : ℚ) : ℚ :=
  if dps.length < 3 then 0 else
  let y : ℕ → ℚ := fun i => (dps.getD i default).value
  let x : ℕ → ℚ := fun i => (((dps.getD i default).date - (dps.getD 0 default).date : ℤ) : ℚ)
  let n := dps.length
  let mean := (∑ i ∈ Finset.range n, y i) / (n : ℚ)
  let ss_res := ∑ i ∈ Finset.range n, (y i - (y 0 + slope * x i)) ^ 2
  let ss_tot := ∑ i ∈ Finset.range n, (y i - mean) ^ 2
  if ss_tot = 0 then (if ss_res = 0 then 1 else 0)
  else max 0 (min 1 (max 0 (1 - ss_res / ss_tot) * min 1 ((n : ℚ) / 14)))

theorem calculate_trend_confidence_eq_spec (dps : List DataPoint) (slope : ℚ) :
    calculate_trend_confidence dps slope = trendConfidenceSpec dps slope := by
  unfold calculate_trend_confidence trendConfidenceSpec
  by_cases h3 : dps.length < 3
  · rw [if_pos h3, if_pos h3]
  · rw [if_neg h3, if_neg h3]
    simp only [max_zero_eq_ite, List.zip_map', List.map_map, Function.comp_def,
      sum_map_eq_rangeD, List.length_map, List.getD_cons_zero]

theorem calculate_trend_confidence_bounds (dps : List DataPoint) (slope : ℚ) :
    0 ≤ calculate_trend_confidence dps slope ∧ calculate_trend_confidence dps slope ≤ 1 := by
  unfold calculate_trend_confidence
  dsimp only
  split_ifs
  · exact ⟨le_refl 0, by norm_num⟩
  · exact ⟨by norm_num, le_refl 1⟩
  · exact ⟨le_refl 0, by norm_num⟩
  · exact ⟨le_max_left 0 _, max_le (by norm_num) (min_le_left 1 _)⟩
  · exact ⟨le_max_left 0 _, max_le (by norm_num) (min_le_left 1 _)⟩

/-- Claim C2: `_calculate_trend_confidence` returns 0 for fewer than
3 points; otherwise it is `R²` of the line with intercept the first
value and the given slope (1 when `SS_tot = 0 = SS_res`, 0 when
`SS_tot = 0 ≠ SS_res`), clamped below at 0, multiplied by
`min 1 (n/14)` and clamped to `[0, 1]`; the perfectly linear 7-point
series with its exact fitted slope 1/2 yields exactly 1/2 ∈ (0.4, 0.6]. -/
theorem trend_confidence_meets_spec (dps : List DataPoint) (slope : ℚ) :
    (dps.length < 3 → calculate_trend_confidence dps slope = 0)
    ∧ calculate_trend_confidence dps slope = trendConfidenceSpec dps slope
    ∧ 0 ≤ calculate_trend_confidence dps slope
    ∧ calculate_trend_confidence dps slope ≤ 1
    ∧ calculate_trend_confidence linearExample7 (1/2) = 1/2
    ∧ 2/5 < calculate_trend_confidence linearExample7 (1/2)
    ∧ calculate_trend_confidence linearExample7 (1/2) ≤ 3/5 := by
  refine ⟨?_, calculate_trend_confidence_eq_spec dps slope,
    (calculate_trend_confidence_bounds dps slope).1,
    (calculate_trend_confidence_bounds dps slope).2, ?_, ?_, ?_⟩
  · intro h
    unfold calculate_trend_confidence
    rw [if_pos h]
  · norm_num [calculate_trend_confidence, linearExample7]
  · norm_num [calculate_trend_confidence, linearExample7]
  · norm_num [calculate_trend_confidence, linearExample7]

theorem trend_confidence_meets_spec_witness :
    ([] : List DataPoint).length < 3 ∧ calculate_trend_confidence [] 0 = 0 :=
  ⟨by decide, (trend_confidence_meets_spec [] 0).1 (by decide)⟩

/-- The Pearson coefficient as the spec words it, over the filtered
pairs, with the 0-guards and the `[-1, 1]` clamp. -/
noncomputable def pearsonCorrelationSpec (xs ys : List (Option ℚ)) : ℝ :=
  if xs.length ≠ ys.length ∨ xs.length < 2 then 0 else
  let ps := validPairs xs ys
  if ps.length < 2 then 0 else
  let x : ℕ → ℝ := fun i => ((ps.getD i default).1 : ℝ)
  let y : ℕ → ℝ := fun i => ((ps.getD i default).2 : ℝ)
  let n : ℝ := ps.length
  let sx := ∑ i ∈ Finset.range ps.length, x i
  let sy := ∑ i ∈ Finset.range ps.length, y i
  let sxy := ∑ i ∈ Finset.range ps.length, x i * y i
  let sx2 := ∑ i ∈ Finset.range ps.length, (x i) ^ 2
  let sy2 := ∑ i ∈ Finset.range ps.length, (y i) ^ 2
  let den := Real.sqrt ((n * sx2 - sx ^ 2) * (n * sy2 - sy ^ 2))
  if den = 0 then 0 else max (-1) (min 1 ((n * sxy - sx * sy) / den))

theorem calculate_correlation_eq_spec (xs ys : List (Option ℚ)) :
    calculate_correlation xs ys = pearsonCorrelationSpec xs ys := by
  unfold calculate_correlation pearsonCorrelationSpec corrNumerator corrDenomSq
  by_cases h1 : xs.length ≠ ys.length ∨ xs.length < 2
  · rw [if_pos h1, if_pos h1]
  · rw [if_neg h1, if_neg h1]
    dsimp only
    by_cases h2 : (validPairs xs ys).length < 2
    · rw [if_pos h2, if_pos h2]
    · rw [if_neg h2, if_neg h2]
      push_cast [sum_map_eq_rangeD, pow_two]
      rfl

theorem validPairs_all_zero (xs ys : List (Option ℚ)) (hy : ∀ o ∈ ys, o = some 0) :
    validPairs xs ys = [] := by
  unfold validPairs
  rw [List.filterMap_eq_nil_iff]
  intro q hq
  match q with
  | (ox, oy) =>
    have hmem := (List.of_mem_zip hq).2
    rw [hy oy hmem]
    cases ox <;> simp

/-- The ±1-correlation example inputs of the spec. -/
def listX15 : List (Option ℚ) := [some 1, some 2, some 3, some 4, some 5]

def listYup : List (Option ℚ) := [some 2, some 4, some 6, some 8, some 10]

def listYdown : List (Option ℚ) := [some 10, some 8, some 6, some 4, some 2]

theorem sqrt_rat_10000 : Real.sqrt (((10000 : ℚ) : ℝ)) = 100 := by
  rw [show (((10000 : ℚ) : ℝ)) = (100 : ℝ) ^ 2 by norm_num]
  exact Real.sqrt_sq (by norm_num)

theorem calculate_correlation_up : calculate_correlation listX15 listYup = 1 := by
  have hvp : validPairs listX15 listYup = [(1, 2), (2, 4), (3, 6), (4, 8), (5, 10)] := by
    decide
  have hnum : corrNumerator [((1 : ℚ), (2 : ℚ)), (2, 4), (3, 6), (4, 8), (5, 10)] = 100 := by
    norm_num [corrNumerator]
  have hden : corrDenomSq [((1 : ℚ), (2 : ℚ)), (2, 4), (3, 6), (4, 8), (5, 10)] = 10000 := by
    norm_num [corrDenomSq]
  unfold calculate_correlation
  rw [if_neg (by norm_num [listX15, listYup])]
  dsimp only
  rw [hvp, hnum, hden, sqrt_rat_10000]
  rw [if_neg (by norm_num)]
  rw [if_neg (by norm_num)]
  norm_num

theorem calculate_correlation_down : calculate_correlation listX15 listYdown = -1 := by
  have hvp : validPairs listX15 listYdown = [(1, 10), (2, 8), (3, 6), (4, 4), (5, 2)] := by
    decide
  have hnum : corrNumerator [((1 : ℚ), (10 : ℚ)), (2, 8), (3, 6), (4, 4), (5, 2)] = -100 := by
    norm_num [corrNumerator]
  have hden : corrDenomSq [((1 : ℚ), (10 : ℚ)), (2, 8), (3, 6), (4, 4), (5, 2)] = 10000 := by
    norm_num [corrDenomSq]
  unfold calculate_correlation
  rw [if_neg (by norm_num [listX15, listYdown])]
  dsimp only
  rw [hvp, hnum, hden, sqrt_rat_10000]
  rw [if_neg (by norm_num)]
  rw [if_neg (by norm_num)]
  norm_num

/-- Claim C3: `_calculate_correlation` returns 0 on mismatched
lengths, on fewer than 2 elements, and when fewer than 2 valid pairs
remain after dropping pairs with a missing value or a zero y-value
(hence on any all-zero y-series); otherwise it is the standard Pearson
coefficient of the remaining pairs clamped to `[-1, 1]` (0 on a zero
denominator); on ([1..5], [2,4,6,8,10]) it returns 1 and on
([1..5], [10,8,6,4,2]) it returns −1. -/
theorem correlation_meets_spec (xs ys : List (Option ℚ)) :
    (xs.length ≠ ys.length → calculate_correlation xs ys = 0)
    ∧ (xs.length < 2 → calculate_correlation xs ys = 0)
    ∧ ((validPairs xs ys).length < 2 → calculate_correlation xs ys = 0)
    ∧ calculate_correlation xs ys = pearsonCorrelationSpec xs ys
    ∧ ((∀ o ∈ ys, o = some 0) → calculate_correlation xs ys = 0)
    ∧ calculate_correlation listX15 listYup = 1
    ∧ calculate_correlation listX15 listYdown = -1 := by
  refine ⟨?_, ?_, ?_, calculate_correlation_eq_spec xs ys, ?_,
    calculate_correlation_up, calculate_correlation_down⟩
  · intro h
    unfold calculate_correlation
    rw [if_pos (Or.inl h)]
  · intro h
    unfold calculate_correlation
    rw [if_pos (Or.inr h)]
  · intro h
    unfold calculate_correlation
    by_cases h1 : xs.length ≠ ys.length ∨ xs.length < 2
    · rw [if_pos h1]
    · rw [if_neg h1]
      dsimp only
      rw [if_pos h]
  · intro hy
    have hvp := validPairs_all_zero xs ys hy
    unfold calculate_correlation
    by_cases h1 : xs.length ≠ ys.length ∨ xs.length < 2
    · rw [if_pos h1]
    · rw [if_neg h1]
      dsimp only
      rw [hvp]
      norm_num

theorem correlation_meets_spec_witness :
    (([some 1] : List (Option ℚ)).length ≠ ([] : List (Option ℚ)).length
      ∧ calculate_correlation [some 1] [] = 0)
    ∧ ((∀ o ∈ ([some 0, some 0] : List (Option ℚ)), o = some 0)
      ∧ calculate_correlation [some 1, some 2] [some 0, some 0] = 0) :=
  ⟨⟨by decide, (correlation_meets_spec [some 1] []).1 (by decide)⟩,
   ⟨by decide, (correlation_meets_spec [some 1, some 2] [some 0, some 0]).2.2.2.2.1 (by decide)⟩⟩

/-- Inputs exhibiting the asymmetry of `_calculate_correlation`: zero
x-values are kept but zero y-values are dropped by the filter. -/
def listAsymA : List (Option ℚ) := [some 0, some 0, some 1]

def listAsymB : List (Option ℚ) := [some 1, some 2, some 3]

/-- Claim C9: `_calculate_correlation` is not symmetric in its two
arguments: the cleaning filter drops pairs with y-value exactly 0 but
keeps pairs with x-value 0, so there are equal-length lists with
`corr(xs, ys) ≠ corr(ys, xs)`. -/
theorem correlation_not_symmetric :
    ∃ xs ys : List (Option ℚ), xs.length = ys.length
      ∧ calculate_correlation xs ys ≠ calculate_correlation ys xs := by
  refine ⟨listAsymA, listAsymB, by decide, ?_⟩
  have hBA : calculate_correlation listAsymB listAsymA = 0 := by
    unfold calculate_correlation
    rw [if_neg (by norm_num [listAsymA, listAsymB])]
    dsimp only
    rw [if_pos (by decide)]
  have hpos : 0 < calculate_correlation listAsymA listAsymB := by
    have hvp : validPairs listAsymA listAsymB = [(0, 1), (0, 2), (1, 3)] := by decide
    have hnum : corrNumerator [((0 : ℚ), (1 : ℚ)), (0, 2), (1, 3)] = 3 := by
      norm_num [corrNumerator]
    have hden : corrDenomSq [((0 : ℚ), (1 : ℚ)), (0, 2), (1, 3)] = 12 := by
      norm_num [corrDenomSq]
    unfold calculate_correlation
    rw [if_neg (by norm_num [listAsymA, listAsymB])]
    dsimp only
    rw [hvp, hnum, hden]
    have hs : (0 : ℝ) < Real.sqrt (((12 : ℚ) : ℝ)) := Real.sqrt_pos.mpr (by norm_num)
    rw [if_neg (by norm_num)]
    rw [if_neg (ne_of_gt hs)]
    have h3 : (0 : ℝ) < ((3 : ℚ) : ℝ) / Real.sqrt (((12 : ℚ) : ℝ)) :=
      div_pos (by norm_num) hs
    calc (0 : ℝ) < min 1 (((3 : ℚ) : ℝ) / Real.sqrt (((12 : ℚ) : ℝ))) := lt_min one_pos h3
    _ ≤ max (-1) (min 1 (((3 : ℚ) : ℝ) / Real.sqrt (((12 : ℚ) : ℝ)))) := le_max_right _ _
  rw [hBA]
  exact ne_of_gt hpos

/-- Claim C5: with fewer than 3 valid pairs after filtering,
`_calculate_correlation_with_significance` returns exactly the record
{correlation: 0, p_value: 1, significant: false, confidence_level:
"none", sample_size: n, interpretation: "insufficient_data"} (and no
other fields), never raising — totality is by construction here. -/
theorem correlation_significance_insufficient (xs ys : List (Option ℚ))
    (h : (validPairs xs ys).length < 3) :
    calculate_correlation_with_significance xs ys =
      ⟨0, 1, false, "none", none, (validPairs xs ys).length, none, none,
        "insufficient_data"⟩ := by
  unfold calculate_correlation_with_significance
  dsimp only
  rw [if_pos h]

theorem correlation_significance_insufficient_witness :
    (validPairs [some 1, some 2] [some 1, some 0]).length < 3
    ∧ calculate_correlation_with_significance [some 1, some 2] [some 1, some 0] =
      ⟨0, 1, false, "none", none,
        (validPairs [some 1, some 2] [some 1, some 0]).length, none, none,
        "insufficient_data"⟩ :=
  ⟨by decide, correlation_significance_insufficient [some 1, some 2] [some 1, some 0] (by decide)⟩

theorem p_value_from_t_mem (t : ℝ) (df : ℕ) (h : 3 ≤ df) :
    calculate_p_value_from_t t df ∈ ({0.001, 0.01, 0.05, 0.1, 0.2} : Set ℝ) := by
  unfold calculate_p_value_from_t
  rw [if_neg (by omega)]
  split_ifs <;> norm_num [Set.mem_insert_iff, Set.mem_singleton_iff]

theorem p_value_from_t_small (t : ℝ) (df : ℕ) (h : df < 3) :
    calculate_p_value_from_t t df = 1 := by
  unfold calculate_p_value_from_t
  rw [if_pos h]

theorem pythonRound4_const (k : ℤ) (x : ℝ) (h : x * 10000 = (k : ℝ)) :
    pythonRound4 x = (k : ℝ) / 10000 := by
  unfold pythonRound4
  rw [h, round_intCast]

theorem pythonRound4_fixes_p (x : ℝ) (hx : x ∈ ({0.001, 0.01, 0.05, 0.1, 0.2} : Set ℝ)) :
    pythonRound4 x = x := by
  rcases hx with h | h | h | h | h
  · rw [h, pythonRound4_const 10 _ (by push_cast; norm_num)]
    push_cast; norm_num
  · rw [h, pythonRound4_const 100 _ (by push_cast; norm_num)]
    push_cast; norm_num
  · rw [h, pythonRound4_const 500 _ (by push_cast; norm_num)]
    push_cast; norm_num
  · rw [h, pythonRound4_const 1000 _ (by push_cast; norm_num)]
    push_cast; norm_num
  · rw [h, pythonRound4_const 2000 _ (by push_cast; norm_num)]
    push_cast; norm_num

theorem pythonRound4_one : pythonRound4 1 = 1 := by
  rw [pythonRound4_const 10000 _ (by push_cast; norm_num)]
  push_cast; norm_num

/-- Claim C4 (amended: the original claim fails for 3 or 4 valid
pairs, where the degrees of freedom fall below 3 and the table lookup
returns 1.0): with at least 5 valid pairs and |r| < 1, the t-statistic
is `r·sqrt((n−2)/(1−r²))` and the p-value is the table lookup on |t|
with n−2 degrees of freedom, landing in {0.001, 0.01, 0.05, 0.10, 0.20}. -/
theorem correlation_significance_p_value (xs ys : List (Option ℚ))
    (h5 : 5 ≤ (validPairs xs ys).length)
    (hr : |calculate_correlation xs ys| < 1) :
    (calculate_correlation_with_significance xs ys).p_value
      = pythonRound4 (calculate_p_value_from_t
          |tStatistic (calculate_correlation xs ys) (validPairs xs ys).length|
          ((validPairs xs ys).length - 2))
    ∧ (calculate_correlation_with_significance xs ys).p_value
        ∈ ({0.001, 0.01, 0.05, 0.1, 0.2} : Set ℝ)
    ∧ tStatistic (calculate_correlation xs ys) (validPairs xs ys).length
      = calculate_correlation xs ys
        * Real.sqrt ((((validPairs xs ys).length : ℝ) - 2)
            / (1 - calculate_correlation xs ys ^ 2)) := by
  have hn3 : ¬ (validPairs xs ys).length < 3 := by omega
  have hne : ¬ |calculate_correlation xs ys| = 1 := ne_of_lt hr
  have hp : (calculate_correlation_with_significance xs ys).p_value
      = pythonRound4 (calculate_p_value_from_t
          |tStatistic (calculate_correlation xs ys) (validPairs xs ys).length|
          ((validPairs xs ys).length - 2)) := by
    unfold calculate_correlation_with_significance
    dsimp only
    rw [if_neg hn3]
    dsimp only
    rw [if_neg hne]
  refine ⟨hp, ?_, rfl⟩
  rw [hp]
  have hmem := p_value_from_t_mem
    |tStatistic (calculate_correlation xs ys) (validPairs xs ys).length|
    ((validPairs xs ys).length - 2) (by omega)
  rw [pythonRound4_fixes_p _ hmem]
  exact hmem

/-- Inputs with exactly 3 valid pairs and |r| strictly between 0 and 1. -/
def listT3X : List (Option ℚ) := [some 1, some 2, some 3]

def listT3Y : List (Option ℚ) := [some 1, some 2, some 2]

theorem corrT3_eq : calculate_correlation listT3X listT3Y = 3 / Real.sqrt 12 := by
  have hvp : validPairs listT3X listT3Y = [(1, 1), (2, 2), (3, 2)] := by decide
  have hnum : corrNumerator [((1 : ℚ), (1 : ℚ)), (2, 2), (3, 2)] = 3 := by
    norm_num [corrNumerator]
  have hden : corrDenomSq [((1 : ℚ), (1 : ℚ)), (2, 2), (3, 2)] = 12 := by
    norm_num [corrDenomSq]
  unfold calculate_correlation
  rw [if_neg (by norm_num [listT3X, listT3Y])]
  dsimp only
  rw [hvp, hnum, hden]
  rw [show (((12 : ℚ) : ℝ)) = (12 : ℝ) by norm_num,
      show (((3 : ℚ) : ℝ)) = (3 : ℝ) by norm_num]
  have hs : (0 : ℝ) < Real.sqrt 12 := Real.sqrt_pos.mpr (by norm_num)
  rw [if_neg (by norm_num), if_neg (ne_of_gt hs)]
  have hle : (3 : ℝ) / Real.sqrt 12 ≤ 1 := by
    rw [div_le_one hs]
    exact (Real.le_sqrt (by norm_num) (by norm_num)).mpr (by norm_num)
  have hpos : (0 : ℝ) < 3 / Real.sqrt 12 := div_pos (by norm_num) hs
  rw [min_eq_right hle, max_eq_right (by linarith)]

theorem corrT3_abs_lt_one : |calculate_correlation listT3X listT3Y| < 1 := by
  rw [corrT3_eq]
  have hs : (0 : ℝ) < Real.sqrt 12 := Real.sqrt_pos.mpr (by norm_num)
  rw [abs_of_pos (div_pos (by norm_num) hs), div_lt_one hs]
  exact (Real.lt_sqrt (by norm_num)).mpr (by norm_num)

/-- Counterexample to claim C4 as stated: on ([1,2,3], [1,2,2]) there
are exactly 3 valid pairs and |r| < 1, yet the returned p-value is
1.0, not a member of {0.001, 0.01, 0.05, 0.10, 0.20} — the degrees of
freedom n−2 = 1 fall below the table's minimum of 3. -/
theorem correlation_significance_p_value_counterexample :
    3 ≤ (validPairs listT3X listT3Y).length
    ∧ |calculate_correlation listT3X listT3Y| < 1
    ∧ (calculate_correlation_with_significance listT3X listT3Y).p_value = 1
    ∧ (1 : ℝ) ∉ ({0.001, 0.01, 0.05, 0.1, 0.2} : Set ℝ) := by
  refine ⟨by decide, corrT3_abs_lt_one, ?_,
    by norm_num [Set.mem_insert_iff, Set.mem_singleton_iff]⟩
  unfold calculate_correlation_with_significance
  dsimp only
  rw [if_neg (by decide)]
  dsimp only
  rw [if_neg (ne_of_lt corrT3_abs_lt_one)]
  rw [p_value_from_t_small _ _ (show (validPairs listT3X listT3Y).length - 2 < 3 by decide)]
  exact pythonRound4_one

/-- A 5-point series that is not perfectly linear: r = 60/√3700. -/
def listW5X : List (Option ℚ) := [some 1, some 2, some 3, some 4, some 5]

def listW5Y : List (Option ℚ) := [some 1, some 2, some 3, some 4, some 6]

theorem corrW5_eq : calculate_correlation listW5X listW5Y = 60 / Real.sqrt 3700 := by
  have hvp : validPairs listW5X listW5Y = [(1, 1), (2, 2), (3, 3), (4, 4), (5, 6)] := by
    decide
  have hnum : corrNumerator [((1 : ℚ), (1 : ℚ)), (2, 2), (3, 3), (4, 4), (5, 6)] = 60 := by
    norm_num [corrNumerator]
  have hden : corrDenomSq [((1 : ℚ), (1 : ℚ)), (2, 2), (3, 3), (4, 4), (5, 6)] = 3700 := by
    norm_num [corrDenomSq]
  unfold calculate_correlation
  rw [if_neg (by norm_num [listW5X, listW5Y])]
  dsimp only
  rw [hvp, hnum, hden]
  rw [show (((3700 : ℚ) : ℝ)) = (3700 : ℝ) by norm_num,
      show (((60 : ℚ) : ℝ)) = (60 : ℝ) by norm_num]
  have hs : (0 : ℝ) < Real.sqrt 3700 := Real.sqrt_pos.mpr (by norm_num)
  rw [if_neg (by norm_num), if_neg (ne_of_gt hs)]
  have hle : (60 : ℝ) / Real.sqrt 3700 ≤ 1 := by
    rw [div_le_one hs]
    exact (Real.le_sqrt (by norm_num) (by norm_num)).mpr (by norm_num)
  have hpos : (0 : ℝ) < 60 / Real.sqrt 3700 := div_pos (by norm_num) hs
  rw [min_eq_right hle, max_eq_right (by linarith)]

theorem corrW5_abs_lt_one : |calculate_correlation listW5X listW5Y| < 1 := by
  rw [corrW5_eq]
  have hs : (0 : ℝ) < Real.sqrt 3700 := Real.sqrt_pos.mpr (by norm_num)
  rw [abs_of_pos (div_pos (by norm_num) hs), div_lt_one hs]
  exact (Real.lt_sqrt (by norm_num)).mpr (by norm_num)

theorem correlation_significance_p_value_witness :
    (5 ≤ (validPairs listW5X listW5Y).length
      ∧ |calculate_correlation listW5X listW5Y| < 1)
    ∧ (calculate_correlation_with_significance listW5X listW5Y).p_value
        ∈ ({0.001, 0.01, 0.05, 0.1, 0.2} : Set ℝ) :=
  ⟨⟨by decide, corrW5_abs_lt_one⟩,
   (correlation_significance_p_value listW5X listW5Y (by decide) corrW5_abs_lt_one).2.1⟩

/-! ## Cache behaviour -/

/-- Claim C10: `invalidate_user_cache` with an empty (non-None) list
of analysis types deletes every cache entry of the user, exactly as if
None had been passed: the Python truthiness guard `if analysis_types:`
treats the empty list as "no restriction". -/
theorem invalidate_empty_list_deletes_all (cache : Cache) (u : String) :
    (∀ t : String, ∀ w : ℤ, invalidate_user_cache cache u (some []) (u, t, w) = none)
    ∧ invalidate_user_cache cache u (some []) = invalidate_user_cache cache u none := by
  constructor
  · intro t w
    simp [invalidate_user_cache]
  · rfl

/-- Claim C7: after `invalidate_user_cache(U, [T])`,
`get_cached_analysis(U, T, w)` misses for every window `w`, while rows
of other users or other analysis types are untouched. -/
theorem invalidate_then_get_misses (cache : Cache) (now : ℤ) (u T : String) :
    (∀ w : ℤ,
      get_cached_analysis (invalidate_user_cache cache u (some [T])) now u T w = none)
    ∧ (∀ (u' t' : String) (w' : ℤ), u' ≠ u ∨ t' ≠ T →
        invalidate_user_cache cache u (some [T]) (u', t', w') = cache (u', t', w')) := by
  constructor
  · intro w
    simp [get_cached_analysis, invalidate_user_cache]
  · intro u' t' w' h
    have hcond : ¬ (u' = u ∧ t' ∈ [T]) := by
      rcases h with h | h
      · exact fun hc => h hc.1
      · exact fun hc => h (by simpa using hc.2)
    show (if u' = u ∧ t' ∈ [T] then none else cache (u', t', w')) = cache (u', t', w')
    exact if_neg hcond

/-- A two-user sample cache used by witnesses. -/
def cacheSample : Cache := fun k =>
  if k = ("alice", "weight_trends", 30) then
    some ⟨CachePayload.blob "wt", 100, 1/2, 0⟩
  else if k = ("bob", "weight_trends", 30) then
    some ⟨CachePayload.blob "bobdata", 100, 1/2, 0⟩
  else none

theorem invalidate_then_get_misses_witness :
    ("bob" ≠ "alice" ∨ "weight_trends" ≠ "weight_trends")
    ∧ get_cached_analysis (invalidate_user_cache cacheSample "alice" (some ["weight_trends"]))
        0 "alice" "weight_trends" 30 = none
    ∧ invalidate_user_cache cacheSample "alice" (some ["weight_trends"])
        ("bob", "weight_trends", 30) = cacheSample ("bob", "weight_trends", 30) :=
  ⟨Or.inl (by decide),
   (invalidate_then_get_misses cacheSample 0 "alice" "weight_trends").1 30,
   (invalidate_then_get_misses cacheSample 0 "alice" "weight_trends").2 "bob" "weight_trends" 30
     (Or.inl (by decide))⟩

theorem get_after_put (cache : Cache) (now : ℤ) (u t : String) (w : ℤ)
    (p : CachePayload) (conf : ℚ) (hours : ℤ) (h : 0 < hours) :
    get_cached_analysis (cache_analysis_result cache now u t w p conf hours) now u t w
      = some ⟨p, conf, now⟩ := by
  unfold get_cached_analysis cache_analysis_result
  rw [if_pos rfl]
  dsimp only
  rw [if_pos (by omega : now < now + hours)]

/-- Claim C8: with no intervening writes, two successive calls of
`calculate_weight_trends(user, days)` return the identical
TrendAnalysis, the second one served from the result cache (which then
holds an entry for `(user, "weight_trends", days)`) without
recomputation — the second call leaves the cache unchanged. -/
theorem weight_trends_idempotent (cache : Cache) (now : ℤ) (u : String)
    (days : ℤ) (weight_data : List DataPoint)
    (hmiss : get_cached_analysis cache now u "weight_trends" days = none)
    (hlen : 7 ≤ weight_data.length) :
    (calculate_weight_trends cache now u days weight_data).1.isSome = true
    ∧ (calculate_weight_trends (calculate_weight_trends cache now u days weight_data).2
        now u days weight_data).1
      = (calculate_weight_trends cache now u days weight_data).1
    ∧ (calculate_weight_trends (calculate_weight_trends cache now u days weight_data).2
        now u days weight_data).2
      = (calculate_weight_trends cache now u days weight_data).2
    ∧ (get_cached_analysis (calculate_weight_trends cache now u days weight_data).2
        now u "weight_trends" days).isSome = true := by
  have hnot : ¬ weight_data.length < 7 := not_lt.mpr hlen
  unfold calculate_weight_trends
  rw [hmiss]
  dsimp only
  rw [if_neg hnot]
  dsimp only
  rw [get_after_put cache now u "weight_trends" days _ _ 24 (by norm_num)]
  dsimp only [trendAnalysisOfPayload]
  exact ⟨rfl, rfl, rfl, rfl⟩

def emptyCache : Cache := fun _ => none

def weightSample7 : List DataPoint :=
  [⟨0, 80⟩, ⟨1, 80⟩, ⟨2, 81⟩, ⟨3, 81⟩, ⟨4, 82⟩, ⟨5, 82⟩, ⟨6, 83⟩]

theorem weight_trends_idempotent_witness :
    (get_cached_analysis emptyCache 0 "alice" "weight_trends" 30 = none
      ∧ 7 ≤ weightSample7.length)
    ∧ (calculate_weight_trends emptyCache 0 "alice" 30 weightSample7).1.isSome = true :=
  ⟨⟨rfl, by decide⟩,
   (weight_trends_idempotent emptyCache 0 "alice" 30 weightSample7 rfl (by decide)).1⟩

/-- Claim C6: the minimum-sample invariant.  On a cache miss,
`calculate_weight_trends` yields no report below 7 points and every
report it produces carries `data_points ≥ 7`; `analyze_macro_patterns`
yields an empty mapping below 7 days and every produced report carries
`data_points ≥ 7`; `_calculate_correlation_with_significance` with
fewer than 3 valid pairs forces `confidence_level = "none"`. -/
theorem minimum_sample_invariant (cache : Cache) (now : ℤ) (u : String) (days : ℤ)
    (wdata : List DataPoint) (mdata : List MacroData) (xs ys : List (Option ℚ)) :
    (get_cached_analysis cache now u "weight_trends" days = none → wdata.length < 7 →
      (calculate_weight_trends cache now u days wdata).1 = none)
    ∧ (get_cached_analysis cache now u "weight_trends" days = none →
        ∀ t : TrendAnalysis, (calculate_weight_trends cache now u days wdata).1 = some t →
          7 ≤ t.data_points)
    ∧ (get_cached_analysis cache now u "macro_patterns" days = none → mdata.length < 7 →
      (analyze_macro_patterns cache now u days mdata).1 = [])
    ∧ (get_cached_analysis cache now u "macro_patterns" days = none →
        ∀ nt ∈ (analyze_macro_patterns cache now u days mdata).1, 7 ≤ nt.2.data_points)
    ∧ ((validPairs xs ys).length < 3 →
      (calculate_correlation_with_significance xs ys).confidence_level = "none") := by
  refine ⟨?_, ?_, ?_, ?_, ?_⟩
  · intro hmiss hlt
    unfold calculate_weight_trends
    rw [hmiss]
    dsimp only
    rw [if_pos hlt]
  · intro hmiss t
    unfold calculate_weight_trends
    rw [hmiss]
    dsimp only
    by_cases hlen : wdata.length < 7
    · rw [if_pos hlen]
      intro ht
      exact absurd ht (by simp)
    · rw [if_neg hlen]
      dsimp only
      intro ht
      have := Option.some.inj ht
      rw [← this]
      exact not_lt.mp hlen
  · intro hmiss hlt
    unfold analyze_macro_patterns
    rw [hmiss]
    dsimp only
    rw [if_pos hlt]
  · intro hmiss nt hmem
    unfold analyze_macro_patterns at hmem
    rw [hmiss] at hmem
    dsimp only at hmem
    by_cases hlen : mdata.length < 7
    · rw [if_pos hlen] at hmem
      exact absurd hmem (by simp)
    · rw [if_neg hlen] at hmem
      dsimp only at hmem
      obtain ⟨name, hname, rfl⟩ := List.mem_map.mp hmem
      simpa using not_lt.mp hlen
  · intro h
    unfold calculate_correlation_with_significance
    dsimp only
    rw [if_pos h]

theorem minimum_sample_invariant_witness :
    (get_cached_analysis emptyCache 0 "bob" "weight_trends" 30 = none
      ∧ ([] : List DataPoint).length < 7
      ∧ (calculate_weight_trends emptyCache 0 "bob" 30 []).1 = none)
    ∧ (([] : List MacroData).length < 7
      ∧ (analyze_macro_patterns emptyCache 0 "bob" 30 []).1 = [])
    ∧ ((validPairs [] []).length < 3
      ∧ (calculate_correlation_with_significance [] []).confidence_level = "none") :=
  ⟨⟨rfl, by decide,
    (minimum_sample_invariant emptyCache 0 "bob" 30 [] [] [] []).1 rfl (by decide)⟩,
   ⟨by decide,
    (minimum_sample_invariant emptyCache 0 "bob" 30 [] [] [] []).2.2.1 rfl (by decide)⟩,
   ⟨by decide,
    (minimum_sample_invariant emptyCache 0 "bob" 30 [] [] [] []).2.2.2.2 (by decide)⟩⟩

end Ascend
